import Mathlib

/-!
Verification development for the Jupyter VS Code extension sources
(kernel providers, raw/Jupyter session state machines, and the server
URI MRU storage).  Each definition is a shallow embedding of a function
from the TypeScript sources; theorems settle the specification claims
against these definitions.
-/

namespace LandJupyter

/-! ## Server URI storage (`src/kernels/jupyter/connection/serverUriStorage.ts`) -/

/-- Cap constant `MAX_MRU_COUNT` from `serverUriStorage.ts` line 21. -/
def MAX_MRU_COUNT : Nat := 10

/-- Data model from `src/kernels/jupyter/types.ts`: the `{extensionId, id, handle}`
triple identifying a third-party-registered remote server. -/
structure JupyterServerProviderHandle where
  extensionId : String
  id : String
  handle : String
deriving DecidableEq, Repr

/-- Modelled from the spec: `jupyterServerHandleToString` lives in
`jupyterUtils.ts`, which is not among the sources.  The spec only requires a
canonical string identity for the handle triple (entries are "deduplicated by
server-handle identity"), so the triple is rendered injectively. -/
def jupyterServerHandleToString (h : JupyterServerProviderHandle) : String :=
  h.extensionId ++ "#" ++ h.id ++ "#" ++ h.handle

/-- `StorageMRUItem` from `serverUriStorage.ts` lines 24-28. -/
structure StorageMRUItem where
  displayName : String
  time : Nat
  serverHandle : JupyterServerProviderHandle
deriving DecidableEq, Repr

/-- `IJupyterServerUriEntry` MRU record (spec section 3, fields used by
`serverUriStorage.ts`). -/
structure IJupyterServerUriEntry where
  serverHandle : JupyterServerProviderHandle
  time : Nat
  displayName : String
  isValidated : Bool
deriving DecidableEq, Repr

/-- Result of a `getJupyterServerUri` lookup in the provider registry
(`IJupyterUriProviderRegistration`), the fields read by `serverUriStorage.ts`. -/
structure IJupyterServerUri where
  displayName : String
  baseUrl : String
deriving DecidableEq, Repr

/-- JavaScript `a || b` on strings: the empty string is falsy. -/
def jsOrString (a b : String) : String :=
  if a = "" then b else a

/-- Outcome of `JupyterServerUriStorage.updateStore` (lines 196-218): the list
written to the storage file and the payload fired on `_onDidRemoveUris`. -/
structure UpdateStoreOutcome where
  itemsSaved : List StorageMRUItem
  removedEvent : List IJupyterServerUriEntry
deriving DecidableEq, Repr

/-- `JupyterServerUriStorage.updateStore` (lines 196-218).
`itemsToSave = items.slice(0, MAX_MRU_COUNT - 1)` and
`itemsToRemove = items.slice(MAX_MRU_COUNT)`; the saved list is written to the
storage file and `_onDidRemoveUris` fires with `itemsToRemove` mapped to
entries with `isValidated: false`. -/
def updateStore (items : List StorageMRUItem) : UpdateStoreOutcome :=
  { itemsSaved := items.take (MAX_MRU_COUNT - 1)
    removedEvent := (items.drop MAX_MRU_COUNT).map fun item =>
      { serverHandle := item.serverHandle
        time := item.time
        displayName := item.displayName
        isValidated := false } }

/-- `JupyterServerUriStorage.getAll` (lines 102-133), for a migrated store.
`file = none` models a missing storage file (returns `[]`); otherwise each
stored item is resolved against the provider registry `getUri`: on success the
display name is `info.displayName || item.displayName || hostname(info.baseUrl)`
with `isValidated := true`; when the registry lookup throws, the entry is kept
with its stored display name and `isValidated := false`. -/
def getAllEntries (getUri : JupyterServerProviderHandle → Except Unit IJupyterServerUri)
    (hostname : String → String) (file : Option (List StorageMRUItem)) :
    List IJupyterServerUriEntry :=
  match file with
  | none => []
  | some items =>
    items.map fun item =>
      match getUri item.serverHandle with
      | .ok info =>
        { serverHandle := item.serverHandle
          time := item.time
          displayName := jsOrString info.displayName (jsOrString item.displayName (hostname info.baseUrl))
          isValidated := true }
      | .error _ =>
        { serverHandle := item.serverHandle
          time := item.time
          displayName := item.displayName
          isValidated := false }

/-- Observable outcome of one successful `JupyterServerUriStorage.add` call:
the list persisted to the storage file, the payloads fired on
`_onDidRemoveUris` (by `updateStore`), and the change/add events. -/
structure AddOutcome where
  persisted : List StorageMRUItem
  removedEventPayloads : List (List IJupyterServerUriEntry)
  didChangeFired : Bool
  addedEntry : IJupyterServerUriEntry
deriving DecidableEq, Repr

/-- `JupyterServerUriStorage.add` (lines 147-177), after migration.  The
registry lookup `getUri serverHandle` re-validates the handle (its failure
propagates).  The current list is read via `getAll`, entries with the same
server-handle string are filtered out, the new entry is appended at the end
with timestamp `now` (`Date.now()`), `updateStore` persists, and then
`_onDidChangeUri` and `_onDidAddUri` fire. -/
def addServerUri (getUri : JupyterServerProviderHandle → Except Unit IJupyterServerUri)
    (hostname : String → String) (now : Nat) (file : Option (List StorageMRUItem))
    (serverHandle : JupyterServerProviderHandle) : Except Unit AddOutcome :=
  match getUri serverHandle with
  | .error e => .error e
  | .ok server =>
    let uriList := getAllEntries getUri hostname file
    let id := jupyterServerHandleToString serverHandle
    let storageItems :=
      (uriList.filter fun item => jupyterServerHandleToString item.serverHandle != id).map
        fun item =>
          ({ displayName := item.displayName
             time := item.time
             serverHandle := item.serverHandle } : StorageMRUItem)
    let entry : IJupyterServerUriEntry :=
      { serverHandle := serverHandle
        time := now
        displayName := server.displayName
        isValidated := true }
    let storageItems := storageItems ++
      [{ displayName := server.displayName, time := now, serverHandle := serverHandle }]
    let u := updateStore storageItems
    .ok { persisted := u.itemsSaved
          removedEventPayloads := [u.removedEvent]
          didChangeFired := true
          addedEntry := entry }

/-- Concrete handle used in the counterexample runs: distinct handles share the
provider but differ in the opaque handle string. -/
def mkHandle (n : Nat) : JupyterServerProviderHandle :=
  { extensionId := "e", id := "p", handle := toString n }

/-- Registry that resolves every handle to a fixed display name. -/
def regOk : JupyterServerProviderHandle → Except Unit IJupyterServerUri :=
  fun _ => .ok { displayName := "nm", baseUrl := "u" }

/-- Hostname extraction stub for the concrete runs (never consulted because
`regOk` returns a non-empty display name). -/
def hostStub : String → String := fun _ => "host"

/-- Storage file already holding nine distinct entries (times 0..8). -/
def nineItemFile : Option (List StorageMRUItem) :=
  some ((List.range 9).map fun n =>
    { displayName := "nm", time := n, serverHandle := mkHandle n })

/-- The `add` run used for claims C1 and C3: a tenth, distinct handle is added
at time 100 on top of nine existing entries. -/
def tenthAddRun : Except Unit AddOutcome :=
  addServerUri regOk hostStub 100 nineItemFile (mkHandle 9)

/-- Ten distinct items handed to `updateStore`, used for claim C2. -/
def tenItems : List StorageMRUItem :=
  (List.range 10).map fun n => { displayName := "nm", time := n, serverHandle := mkHandle n }

/-- The tenth element of `tenItems` (index 9). -/
def tenthItem : StorageMRUItem :=
  { displayName := "nm", time := 9, serverHandle := mkHandle 9 }

/-- C1: with nine entries already stored, adding a tenth distinct handle leaves
exactly the nine OLD entries persisted (the list prefix): the just-added,
newest entry is absent from the persisted list and no removal event reports
it.  This evaluates `add`/`updateStore` at the failing input of the claim
"the entries kept are the most recent MAX_MRU_COUNT - 1 by recency, with the
oldest entries evicted first (the entry just added is always among the kept
entries)": the code keeps the oldest nine and silently evicts the newest. -/
theorem add_tenth_entry_is_evicted_not_the_oldest :
    (tenthAddRun.map fun out => out.persisted) =
      .ok ((List.range 9).map fun n =>
        { displayName := "nm", time := n, serverHandle := mkHandle n }) ∧
    (tenthAddRun.map fun out =>
      out.persisted.contains { displayName := "nm", time := 100, serverHandle := mkHandle 9 }) =
      .ok false ∧
    (tenthAddRun.map fun out => out.removedEventPayloads) = .ok [[]] := by
  refine ⟨?_, ?_, ?_⟩ <;> rfl

/-- C2: `updateStore` on ten items saves indices 0..8 and fires a removal event
only for indices ≥ 10: the item at index 9 is present in the input, absent
from the saved list, and absent from the removal payload — it is dropped
silently, contradicting the claim that every capacity-evicted entry is
included in the `onDidRemove` payload. -/
theorem updateStore_drops_tenth_item_silently :
    tenthItem ∈ tenItems ∧
    (updateStore tenItems).itemsSaved.contains tenthItem = false ∧
    (updateStore tenItems).removedEvent = [] := by
  refine ⟨?_, ?_, ?_⟩ <;> decide

/-- C3: in the same run as C1 (nine pre-existing entries, then `add` of a new
handle), the persisted list contains ZERO entries for the added handle — not
exactly one as the claim states — even though both the change and add events
still fire with the freshly time-stamped entry. -/
theorem add_persists_zero_entries_for_new_handle_at_capacity :
    (tenthAddRun.map fun out =>
      (out.persisted.filter fun i => i.serverHandle == mkHandle 9).length) = .ok 0 ∧
    (tenthAddRun.map fun out => (out.didChangeFired, out.addedEntry)) =
      .ok (true,
        { serverHandle := mkHandle 9, time := 100, displayName := "nm", isValidated := true }) := by
  refine ⟨?_, ?_⟩ <;> rfl

/-! ## Migration guard (`MigrateOldMRU`, `serverUriStorage.ts` lines 221-258) -/

/-- State of `MigrateOldMRU`: the cached `migration` promise (identified by the
value of the run counter when it was created) and the number of times
`migrateMRUImpl` has been started. -/
structure MigrateOldMRUState where
  migration : Option Nat
  implStarts : Nat
deriving DecidableEq, Repr

/-- `MigrateOldMRU.migrateMRU` (lines 229-234): if no migration promise is
cached, start `migrateMRUImpl` and cache its promise; always return the cached
promise.  The check and the assignment are synchronous (no `await` between
them), so in the single-threaded event-loop model each call is atomic. -/
def migrateMRU (st : MigrateOldMRUState) : MigrateOldMRUState × Nat :=
  match st.migration with
  | some p => (st, p)
  | none => ({ migration := some st.implStarts, implStarts := st.implStarts + 1 }, st.implStarts)

/-- Fresh `MigrateOldMRU` instance: no migration started yet. -/
def initialMigrateState : MigrateOldMRUState :=
  { migration := none, implStarts := 0 }

/-- Run `n` successive storage operations; each of `update/add/remove/get/getAll`
begins with `await this.migration.migrateMRU()`, so each operation performs one
`migrateMRU` call.  Returns the final state and the promise returned to each
operation. -/
def runMigrateCalls : Nat → MigrateOldMRUState → MigrateOldMRUState × List Nat
  | 0, st => (st, [])
  | n + 1, st =>
    let r1 := migrateMRU st
    let r2 := runMigrateCalls n r1.1
    (r2.1, r1.2 :: r2.2)

/-- After the first call the state is saturated and every further call returns
promise 0 without starting another migration. -/
theorem runMigrateCalls_saturated (n : Nat) :
    runMigrateCalls n { migration := some 0, implStarts := 1 } =
      ({ migration := some 0, implStarts := 1 }, List.replicate n 0) := by
  induction n with
  | zero => rfl
  | succ n ih => simp [runMigrateCalls, migrateMRU, ih, List.replicate]

/-- C9: across any sequence of `n` server URI storage operations, the migration
body starts exactly `min n 1` times (at most once, lazily on the first
operation) and every operation receives the same single in-flight migration
promise (promise 0). -/
theorem migration_runs_at_most_once (n : Nat) :
    (runMigrateCalls n initialMigrateState).1.implStarts = min n 1 ∧
    (runMigrateCalls n initialMigrateState).2 = List.replicate n 0 := by
  cases n with
  | zero => exact ⟨rfl, rfl⟩
  | succ n =>
    have h := runMigrateCalls_saturated n
    constructor
    · simp [runMigrateCalls, migrateMRU, initialMigrateState, h]
    · simp [runMigrateCalls, migrateMRU, initialMigrateState, h, List.replicate]

/-- Registry in which every lookup throws; used to witness the failed-lookup
branch of `getAll`. -/
def regFail : JupyterServerProviderHandle → Except Unit IJupyterServerUri :=
  fun _ => .error ()

/-- C10: `getAll` returns one result per persisted entry — its length equals
the stored list's length — and any entry whose provider lookup throws is still
returned, with `isValidated := false` and its stored display name kept. -/
theorem getAll_returns_one_result_per_entry
    (getUri : JupyterServerProviderHandle → Except Unit IJupyterServerUri)
    (hostname : String → String) (items : List StorageMRUItem) :
    (getAllEntries getUri hostname (some items)).length = items.length ∧
    ∀ (i : Nat) (item : StorageMRUItem), items[i]? = some item →
      ∀ e : Unit, getUri item.serverHandle = .error e →
      (getAllEntries getUri hostname (some items))[i]? =
        some { serverHandle := item.serverHandle, time := item.time,
               displayName := item.displayName, isValidated := false } := by
  constructor
  · simp [getAllEntries]
  · intro i item hget e herr
    simp [getAllEntries, List.getElem?_map, hget, herr]

/-- Witness for C10 at a concrete store with a single entry whose provider
lookup fails. -/
theorem getAll_returns_one_result_per_entry_witness :
    (getAllEntries regFail hostStub
      (some [{ displayName := "w", time := 3,
               serverHandle := { extensionId := "e", id := "p", handle := "w" } }])).length = 1 ∧
    (getAllEntries regFail hostStub
      (some [{ displayName := "w", time := 3,
               serverHandle := { extensionId := "e", id := "p", handle := "w" } }]))[0]? =
      some { serverHandle := { extensionId := "e", id := "p", handle := "w" }, time := 3,
             displayName := "w", isValidated := false } := by
  have h := getAll_returns_one_result_per_entry regFail hostStub
    [{ displayName := "w", time := 3,
       serverHandle := { extensionId := "e", id := "p", handle := "w" } }]
  exact ⟨h.1, h.2 0 _ rfl () rfl⟩

/-! ## Kernel provider (`src/kernels/kernelProvider.node.ts` / `.web.ts`)

`getOrCreate` (node lines 55-107, web lines 49-94) consults the base-class map,
returns a cached kernel when the stored options' metadata id equals the
requested one, and otherwise disposes the stale kernel and constructs a fresh
one.  The base-class helpers (`getInternal`, `disposeOldKernel`, `storeKernel`,
`deleteMappingIfKernelIsDisposed`) live in `kernelProvider.base.ts`, which is
not among the sources; they are modelled from spec section 4.2. -/

/-- Map entry: the connection-metadata id stored with the options and the
identity of the cached Kernel instance. -/
structure KernelEntry where
  metadataId : String
  kernelId : Nat
deriving DecidableEq, Repr

/-- Provider registry state: the notebook/URI key → kernel map, a counter
generating fresh Kernel identities (also counting constructions), and the set
of kernels that have been disposed. -/
structure ProviderState where
  kernelsByKey : List (String × KernelEntry)
  nextKernelId : Nat
  disposedKernels : List Nat
deriving DecidableEq, Repr

/-- Modelled from the spec: `BaseCoreKernelProvider.getInternal` (in the absent
`kernelProvider.base.ts`) looks the notebook/URI key up in the provider map. -/
def getInternal (st : ProviderState) (key : String) : Option KernelEntry :=
  (st.kernelsByKey.find? fun kv => kv.1 == key).map fun kv => kv.2

/-- Modelled from the spec: `disposeOldKernel` (absent base class) "disposes
any stale entry for that key" and drops it from the map. -/
def disposeOldKernel (st : ProviderState) (key : String) : ProviderState :=
  match getInternal st key with
  | none => { st with kernelsByKey := st.kernelsByKey.filter fun kv => kv.1 != key }
  | some e =>
    { st with
      kernelsByKey := st.kernelsByKey.filter fun kv => kv.1 != key
      disposedKernels := e.kernelId :: st.disposedKernels }

/-- Modelled from the spec: `storeKernel` (absent base class) records the fresh
kernel and its options under the key, replacing any previous mapping. -/
def storeKernel (st : ProviderState) (key mid : String) (kid : Nat) : ProviderState :=
  { st with
    kernelsByKey := (key, { metadataId := mid, kernelId := kid }) ::
      (st.kernelsByKey.filter fun kv => kv.1 != key) }

/-- The miss path of `getOrCreate`: dispose the old kernel for the key,
construct a fresh Kernel (a new identity from the counter) and store it. -/
def createFreshKernel (st : ProviderState) (key mid : String) : Nat × ProviderState :=
  let st1 := disposeOldKernel st key
  let kid := st1.nextKernelId
  (kid, storeKernel { st1 with nextKernelId := kid + 1 } key mid kid)

/-- `KernelProvider.getOrCreate` (node lines 55-107, web lines 49-94): if an
entry exists for the notebook key and its stored options' metadata id equals
`options.metadata.id`, return the cached kernel; otherwise dispose the old
kernel and construct, wire and store a fresh one. -/
def getOrCreate (st : ProviderState) (key mid : String) : Nat × ProviderState :=
  match getInternal st key with
  | some e => if e.metadataId == mid then (e.kernelId, st) else createFreshKernel st key mid
  | none => createFreshKernel st key mid

/-- Number of map entries stored under a key. -/
def countKey (st : ProviderState) (key : String) : Nat :=
  (st.kernelsByKey.filter fun kv => kv.1 == key).length

/-- Filtering with a predicate after filtering with its negation yields the
empty list. -/
theorem filter_pred_filter_not {α : Type} (p : α → Bool) (l : List α) :
    List.filter p (List.filter (fun a => !(p a)) l) = [] := by
  induction l with
  | nil => rfl
  | cons a l ih =>
    by_cases hp : p a = true
    · simp [List.filter_cons, hp, ih]
    · have hp2 : p a = false := by
        revert hp
        cases p a <;> simp
      simp [List.filter_cons, hp2, ih]

/-- Filtering out a key leaves no entries for it. -/
theorem countKey_filter_self (l : List (String × KernelEntry)) (key : String) :
    (List.filter (fun kv => kv.1 == key) (List.filter (fun kv => kv.1 != key) l)) = [] := by
  have hfun : (fun kv : String × KernelEntry => kv.1 != key) =
      fun kv : String × KernelEntry => !(kv.1 == key) := rfl
  rw [hfun, filter_pred_filter_not]

/-- After `createFreshKernel` exactly one entry exists for the key. -/
theorem countKey_createFreshKernel (st : ProviderState) (key mid : String) :
    countKey (createFreshKernel st key mid).2 key = 1 := by
  unfold createFreshKernel storeKernel countKey
  cases h : getInternal st key <;> simp [disposeOldKernel, h, countKey_filter_self]

/-- C4: `getOrCreate` caching discipline, for any state in which the key maps
to at most one kernel (the invariant the provider maintains).  (1) On a hit —
an entry is cached for the key and its stored metadata id equals the requested
one — the identical cached kernel is returned and the state is untouched (in
particular no new Kernel is constructed: the construction counter
`nextKernelId` is unchanged).  (2) On a mismatch the stale cached kernel is
disposed and a freshly constructed kernel is returned and stored under the
key.  (3) Afterwards the key again maps to at most one kernel. -/
theorem getOrCreate_cache_discipline (st : ProviderState) (key mid : String)
    (hinv : countKey st key ≤ 1) :
    (∀ e : KernelEntry, getInternal st key = some e →
      (e.metadataId = mid → getOrCreate st key mid = (e.kernelId, st)) ∧
      (e.metadataId ≠ mid →
        (getOrCreate st key mid).1 = st.nextKernelId ∧
        e.kernelId ∈ (getOrCreate st key mid).2.disposedKernels ∧
        (getOrCreate st key mid).2.nextKernelId = st.nextKernelId + 1 ∧
        getInternal (getOrCreate st key mid).2 key =
          some { metadataId := mid, kernelId := (getOrCreate st key mid).1 })) ∧
    countKey (getOrCreate st key mid).2 key ≤ 1 := by
  constructor
  · intro e he
    constructor
    · intro hmid
      simp [getOrCreate, he, hmid]
    · intro hmid
      have hne : (e.metadataId == mid) = false := by
        simp [hmid]
      refine ⟨?_, ?_, ?_, ?_⟩
      · simp [getOrCreate, he, hne, createFreshKernel, disposeOldKernel, storeKernel]
      · simp [getOrCreate, he, hne, createFreshKernel, disposeOldKernel, storeKernel]
      · simp [getOrCreate, he, hne, createFreshKernel, disposeOldKernel, storeKernel]
      · simp only [getOrCreate, he, hne, Bool.false_eq_true, if_false,
          createFreshKernel, disposeOldKernel, storeKernel]
        simp [getInternal, List.find?]
  · unfold getOrCreate
    cases hgi : getInternal st key with
    | none =>
      simpa using le_of_eq (countKey_createFreshKernel st key mid)
    | some e =>
      by_cases hmid : e.metadataId = mid
      · simpa [hmid] using hinv
      · have hne : (e.metadataId == mid) = false := by
          simp [hmid]
        simpa [hne] using le_of_eq (countKey_createFreshKernel st key mid)

/-- Witness for C4: a provider holding one kernel (id 7) for notebook key
"nb" stored with metadata id "m1"; a hit returns kernel 7 unchanged. -/
theorem getOrCreate_cache_discipline_witness :
    getOrCreate
      { kernelsByKey := [("nb", { metadataId := "m1", kernelId := 7 })]
        nextKernelId := 8
        disposedKernels := [] } "nb" "m1" =
      (7,
       { kernelsByKey := [("nb", { metadataId := "m1", kernelId := 7 })]
         nextKernelId := 8
         disposedKernels := [] }) := by
  have h := getOrCreate_cache_discipline
    { kernelsByKey := [("nb", { metadataId := "m1", kernelId := 7 })]
      nextKernelId := 8
      disposedKernels := [] } "nb" "m1" (by decide)
  exact (h.1 { metadataId := "m1", kernelId := 7 } rfl).1 rfl

/-! ## Raw session restart (`rawJupyterSession.node.ts`, `RawJupyterSession`) -/

/-- Observable steps of `RawJupyterSession.restart` (lines 474-504) and
`setSession` (lines 554-666), with sessions identified by numeric ids. -/
inductive RestartEvent where
  | newSessionReady (sid : Nat)
  | statusHandlerDisconnected (sid : Nat)
  | connectionStatusDisconnected (sid : Nat)
  | currentSessionSet (sid : Option Nat)
  | statusHandlerConnected (sid : Nat)
  | connectionStatusConnected (sid : Nat)
  | shutdownInitiated (sid : Nat)
deriving DecidableEq, Repr

/-- `RawJupyterSession.setSession` (lines 554-666): the previous session's
status and connection-status handlers are disconnected, then `_session` is
reassigned, then the new session's handlers are connected. -/
def setSessionEvents (oldSession newSession : Option Nat) : List RestartEvent :=
  (match oldSession with
   | some o => [.statusHandlerDisconnected o, .connectionStatusDisconnected o]
   | none => []) ++
  [.currentSessionSet newSession] ++
  (match newSession with
   | some n => [.statusHandlerConnected n, .connectionStatusConnected n]
   | none => [])

/-- `RawJupyterSession.restart` (lines 474-504), success path: the pre-warmed
restart session is awaited, installed via `setSession`, its handlers are
rewired, the old session's handlers are disconnected, and only then is
`shutdownSession(oldSession, ...)` initiated (fire-and-forget). -/
def restartRaw (current : Option Nat) (newId : Nat) : Option Nat × List RestartEvent :=
  let oldSession := current
  let evStart := [RestartEvent.newSessionReady newId]
  let evSet := setSessionEvents oldSession (some newId)
  let evRewire := [RestartEvent.statusHandlerConnected newId,
                   RestartEvent.connectionStatusConnected newId]
  let evDisconnectOld :=
    match oldSession with
    | some o => [RestartEvent.statusHandlerDisconnected o,
                 RestartEvent.connectionStatusDisconnected o]
    | none => []
  let evShutdown :=
    match oldSession with
    | some o => [RestartEvent.shutdownInitiated o]
    | none => []
  (some newId, evStart ++ evSet ++ evRewire ++ evDisconnectOld ++ evShutdown)

/-- Recogniser for shutdown-initiation events. -/
def isShutdownInitiated : RestartEvent → Bool :=
  fun e =>
    match e with
    | .shutdownInitiated _ => true
    | _ => false

/-- C5: in every successful `restart` with an existing current session `o` and
new session `n`, the only shutdown initiation is the final step of the trace;
the new session is ready (step 0) and installed as current (step 3), and the
old session's status listener is disconnected (step 1), all strictly before
the old session's shutdown is initiated (step 10). -/
theorem restart_swaps_before_old_shutdown (o n : Nat) :
    ((restartRaw (some o) n).2.length = 11 ∧
     (restartRaw (some o) n).1 = some n) ∧
    ((restartRaw (some o) n).2[10]? = some (.shutdownInitiated o) ∧
     ((restartRaw (some o) n).2.take 10).all (fun e => !(isShutdownInitiated e)) = true) ∧
    ((restartRaw (some o) n).2[0]? = some (.newSessionReady n) ∧
     (restartRaw (some o) n).2[3]? = some (.currentSessionSet (some n)) ∧
     (restartRaw (some o) n).2[1]? = some (.statusHandlerDisconnected o)) := by
  exact ⟨⟨rfl, rfl⟩, ⟨rfl, rfl⟩, rfl, rfl, rfl⟩

/-! ## Kernel-info probe (`RawJupyterSession.postStartRawSession`, lines
721-833; same loop in `OldRawJupyterSession`, lines 236-348) -/

/-- Per-attempt wait bound: `Math.min(this.launchTimeout, 1_500)` (line 766). -/
def kernelInfoWaitBound (launchTimeout : Nat) : Nat :=
  min launchTimeout 1500

/-- One loop iteration: `requestKernelInfo` plus the iopub deferred are raced
against `sleep(bound)`.  `arrival = some t` means the iopub response (and the
kernel-info reply) settles `t` ms into the attempt; the attempt succeeds when
that happens no later than the bound, and otherwise the sleep wins after
exactly `bound` ms with `gotIoPubMessage` still incomplete. -/
def probeAttempt (bound : Nat) (arrival : Option Nat) : Nat × Bool :=
  match arrival with
  | some t => if t ≤ bound then (t, true) else (bound, false)
  | none => (bound, false)

/-- Outcome of the kernel-info retry loop: iterations executed, time waited in
each, and whether an iopub response was observed. -/
structure ProbeOutcome where
  attemptsMade : Nat
  waits : List Nat
  gotIoPubMessage : Bool
deriving DecidableEq, Repr

/-- The `for (attempts = 1; attempts <= 2; attempts++)` loop of
`postStartRawSession` (lines 757-784): the second attempt runs only when the
first received no iopub message (`if (gotIoPubMessage.completed) break`). -/
def postStartKernelInfoProbe (launchTimeout : Nat) (arrival1 arrival2 : Option Nat) :
    ProbeOutcome :=
  let bound := kernelInfoWaitBound launchTimeout
  let a1 := probeAttempt bound arrival1
  if a1.2 then
    { attemptsMade := 1, waits := [a1.1], gotIoPubMessage := true }
  else
    let a2 := probeAttempt bound arrival2
    { attemptsMade := 2, waits := [a1.1, a2.1], gotIoPubMessage := a2.2 }

/-- C6: the kernel-info probe runs at most 2 attempts, each attempt waits at
most `min launchTimeout 1500` milliseconds for the iopub response, and the
loop exits after the first attempt as soon as the iopub message is received
within the bound. -/
theorem kernel_info_probe_bounded (launchTimeout : Nat) (arrival1 arrival2 : Option Nat) :
    (postStartKernelInfoProbe launchTimeout arrival1 arrival2).attemptsMade ≤ 2 ∧
    (∀ w ∈ (postStartKernelInfoProbe launchTimeout arrival1 arrival2).waits,
      w ≤ min launchTimeout 1500) ∧
    (∀ t : Nat, arrival1 = some t → t ≤ min launchTimeout 1500 →
      (postStartKernelInfoProbe launchTimeout arrival1 arrival2).attemptsMade = 1 ∧
      (postStartKernelInfoProbe launchTimeout arrival1 arrival2).gotIoPubMessage = true) := by
  unfold postStartKernelInfoProbe probeAttempt kernelInfoWaitBound
  cases arrival1 with
  | none =>
    cases arrival2 with
    | none => simp
    | some t2 =>
      by_cases h2 : t2 ≤ min launchTimeout 1500 <;> simp [h2] <;> omega
  | some t1 =>
    by_cases h1 : t1 ≤ min launchTimeout 1500
    · simp [h1]
      omega
    · cases arrival2 with
      | none =>
        simp [h1]
        rw [Nat.min_def] at h1
        by_cases hl : launchTimeout ≤ 1500 <;> simp [hl] at h1 <;> omega
      | some t2 =>
        by_cases h2 : t2 ≤ min launchTimeout 1500 <;> simp [h1, h2] <;>
          rw [Nat.min_def] at h1 h2 <;>
          by_cases hl : launchTimeout ≤ 1500 <;> simp [hl] at h1 h2 <;> omega

/-- Witness for C6: launch timeout 30000 caps the wait at 1500 ms, and an
iopub response arriving after 100 ms ends the loop on the first attempt. -/
theorem kernel_info_probe_bounded_witness :
    (postStartKernelInfoProbe 30000 (some 100) none).attemptsMade = 1 ∧
    (postStartKernelInfoProbe 30000 (some 100) none).gotIoPubMessage = true := by
  have h := kernel_info_probe_bounded 30000 (some 100) none
  exact h.2.2 100 rfl (by decide)

/-! ## Session shutdown (`RawJupyterSession.shutdownSession`, lines 506-552;
`JupyterSessionWrapper.shutdownSession`, `jupyterSession.ts` lines 412-441) -/

/-- Behaviour of the protocol-level `session.shutdown()` promise: it either
resolves after `t` ms (possibly leaving the session disposed) or rejects after
`t` ms. -/
inductive GracefulShutdown where
  | resolves (t : Nat) (disposesSession : Bool)
  | rejects (t : Nat)
deriving DecidableEq, Repr

/-- Observable outcome of a `shutdownSession` call. -/
structure ShutdownOutcome where
  gracefulWaitMs : Nat
  forcedDispose : Bool
  sessionDisposedAtEnd : Bool
  errorRaised : Bool
  kernelProcessDisposed : Bool
deriving DecidableEq, Repr

/-- Whether the session is disposed once the graceful phase (a
`raceTimeout(1000, session.shutdown())` guarded by `if (!session.isDisposed)`)
has finished: it was already disposed, or `shutdown()` resolved within the
1000 ms bound and disposed the session. -/
def disposedAfterGraceful (isDisposed : Bool) (graceful : GracefulShutdown) : Bool :=
  isDisposed ||
    (match graceful with
     | .resolves t d => decide (t ≤ 1000) && d
     | .rejects _ => false)

/-- `RawJupyterSession.shutdownSession` (lines 506-552).  An absent session
returns immediately.  With a kernel, the graceful shutdown is raced against a
1000 ms timeout inside `try { ... } catch { noop() }`, a still-undisposed
session is then forcibly disposed (`session.dispose().catch(noop)`), the outer
`try/catch` only traces, and `session.kernelProcess.dispose()` always runs. -/
def rawShutdownSession (sessionExists hasKernel isDisposed : Bool)
    (graceful : GracefulShutdown) : ShutdownOutcome :=
  if !sessionExists then
    { gracefulWaitMs := 0, forcedDispose := false, sessionDisposedAtEnd := false
      errorRaised := false, kernelProcessDisposed := false }
  else if hasKernel then
    let wait := if isDisposed then 0 else
      match graceful with
      | .resolves t _ => min t 1000
      | .rejects t => min t 1000
    let d1 := disposedAfterGraceful isDisposed graceful
    { gracefulWaitMs := wait
      forcedDispose := !d1
      sessionDisposedAtEnd := d1 || !d1
      errorRaised := false
      kernelProcessDisposed := true }
  else
    { gracefulWaitMs := 0, forcedDispose := false, sessionDisposedAtEnd := isDisposed
      errorRaised := false, kernelProcessDisposed := true }

/-- `JupyterSessionWrapper.shutdownSession` (`jupyterSession.ts` lines
412-441).  When the session may not be shut down (live remote kernels, remote
notebook sessions) and `shutdownEvenIfRemote` is not set, the session is just
disposed; otherwise the graceful shutdown is raced against 1000 ms with all
errors swallowed, and a still-undisposed session is forcibly disposed. -/
def wrapperShutdownSession (shutdownEvenIfRemote canShutdown isDisposed : Bool)
    (graceful : GracefulShutdown) : ShutdownOutcome :=
  if !shutdownEvenIfRemote && !canShutdown then
    { gracefulWaitMs := 0, forcedDispose := true, sessionDisposedAtEnd := true
      errorRaised := false, kernelProcessDisposed := false }
  else
    let wait := if isDisposed then 0 else
      match graceful with
      | .resolves t _ => min t 1000
      | .rejects t => min t 1000
    let d1 := disposedAfterGraceful isDisposed graceful
    { gracefulWaitMs := wait
      forcedDispose := !d1
      sessionDisposedAtEnd := d1 || !d1
      errorRaised := false
      kernelProcessDisposed := false }

/-- C7: for every session shutdown (raw and Jupyter wrapper), the graceful
protocol-level shutdown is awaited for at most 1000 ms, the session ends up
disposed even when the graceful attempt times out or throws (with a forced
dispose whenever the graceful phase left it undisposed), and no error from the
graceful attempt propagates to the caller. -/
theorem shutdown_bounded_forced_and_silent (isDisposed : Bool) (graceful : GracefulShutdown) :
    (∀ sessionExists hasKernel : Bool,
      (rawShutdownSession sessionExists hasKernel isDisposed graceful).errorRaised = false ∧
      (rawShutdownSession sessionExists hasKernel isDisposed graceful).gracefulWaitMs ≤ 1000 ∧
      (sessionExists = true → hasKernel = true →
        (rawShutdownSession sessionExists hasKernel isDisposed graceful).sessionDisposedAtEnd
          = true ∧
        (disposedAfterGraceful isDisposed graceful = false →
          (rawShutdownSession sessionExists hasKernel isDisposed graceful).forcedDispose
            = true))) ∧
    (∀ shutdownEvenIfRemote canShutdown : Bool,
      (wrapperShutdownSession shutdownEvenIfRemote canShutdown isDisposed graceful).errorRaised
        = false ∧
      (wrapperShutdownSession shutdownEvenIfRemote canShutdown isDisposed
        graceful).gracefulWaitMs ≤ 1000 ∧
      (wrapperShutdownSession shutdownEvenIfRemote canShutdown isDisposed
        graceful).sessionDisposedAtEnd = true) := by
  constructor
  · intro sessionExists hasKernel
    cases graceful with
    | resolves t d =>
      cases sessionExists <;> cases hasKernel <;> cases isDisposed <;> cases d <;>
        simp [rawShutdownSession, disposedAfterGraceful]
    | rejects t =>
      cases sessionExists <;> cases hasKernel <;> cases isDisposed <;>
        simp [rawShutdownSession, disposedAfterGraceful]
  · intro shutdownEvenIfRemote canShutdown
    cases graceful with
    | resolves t d =>
      cases shutdownEvenIfRemote <;> cases canShutdown <;> cases isDisposed <;> cases d <;>
        simp [wrapperShutdownSession, disposedAfterGraceful]
    | rejects t =>
      cases shutdownEvenIfRemote <;> cases canShutdown <;> cases isDisposed <;>
        simp [wrapperShutdownSession, disposedAfterGraceful]

/-- Witness for C7: a session whose graceful shutdown would only resolve after
5000 ms is cut off at the 1000 ms bound, forcibly disposed, and raises no
error. -/
theorem shutdown_bounded_forced_and_silent_witness :
    (rawShutdownSession true true false (.resolves 5000 true)).errorRaised = false ∧
    (rawShutdownSession true true false (.resolves 5000 true)).gracefulWaitMs ≤ 1000 ∧
    (rawShutdownSession true true false (.resolves 5000 true)).sessionDisposedAtEnd = true ∧
    (rawShutdownSession true true false (.resolves 5000 true)).forcedDispose = true := by
  have h := (shutdown_bounded_forced_and_silent false (.resolves 5000 true)).1 true true
  exact ⟨h.1, h.2.1, (h.2.2 rfl rfl).1, (h.2.2 rfl rfl).2 (by decide)⟩

/-! ## Startup error classification (`OldJupyterSession.createNewKernelSession`,
`jupyterSession.ts` lines 76-141; `RawJupyterSession.connect`,
`rawJupyterSession.node.ts` lines 439-460) -/

/-- Kinds of errors surfacing during session startup: a VS Code
`CancellationError`, a known typed error deriving from the extension's
`BaseError` (identified by its class name), or any other unknown error.
`CancellationError` comes from the `vscode` module and does NOT derive from
the extension's `BaseError`. -/
inductive StartupError where
  | cancellation
  | base (name : String)
  | other (name : String)
deriving DecidableEq, Repr

/-- The catch handler of `OldJupyterSession.createNewKernelSession` (lines
125-138): `if (exc instanceof BaseError) throw exc; else throw new
JupyterInvalidKernelError(...)`.  There is no cancellation test, so a
`CancellationError` falls into the else branch. -/
def createNewKernelSessionCatch (e : StartupError) : StartupError :=
  match e with
  | .base n => .base n
  | _ => .base "JupyterInvalidKernelError"

/-- The catch handler of `RawJupyterSession.connect` (lines 452-459): the
cancellation test only selects the log level; both branches `throw error`
unchanged. -/
def rawConnectCatch (e : StartupError) : StartupError :=
  match e with
  | .cancellation => .cancellation
  | e2 => e2

/-- C8 counterexample: at `RawJupyterSession.connect` an unknown error
(`TypeError`) surfaces unchanged instead of being wrapped into
`JupyterInvalidKernelError`, and at `OldJupyterSession.createNewKernelSession`
a cancellation error is wrapped into `JupyterInvalidKernelError` instead of
propagating unchanged — both refuting the claim as stated. -/
theorem startup_error_claim_counterexample :
    rawConnectCatch (.other "TypeError") = .other "TypeError" ∧
    createNewKernelSessionCatch .cancellation = .base "JupyterInvalidKernelError" := by
  exact ⟨rfl, rfl⟩

/-- C8 amended: `OldJupyterSession.createNewKernelSession` re-throws known
typed errors (`BaseError`) unchanged and wraps every other error — including
cancellation errors — into `JupyterInvalidKernelError`, while
`RawJupyterSession.connect` propagates every startup error to its caller
unchanged, wrapping nothing. -/
theorem startup_error_classification :
    (∀ e : StartupError, rawConnectCatch e = e) ∧
    (∀ n : String, createNewKernelSessionCatch (.base n) = .base n) ∧
    createNewKernelSessionCatch .cancellation = .base "JupyterInvalidKernelError" ∧
    (∀ n : String, createNewKernelSessionCatch (.other n) = .base "JupyterInvalidKernelError") := by
  refine ⟨fun e => ?_, fun n => rfl, rfl, fun n => rfl⟩
  cases e <;> rfl

end LandJupyter
